import Mathlib

/-!
Verification of the NL-STV core against its specification.

This file gives a shallow embedding of the engineering core of the
repository — the execution sandbox (`src/core/execution/executor.py`),
the code extractor (`CodeExecutor._clean_code`), the repair loop
(`handle_query` in `src/app.py`) and the fix-request builder
(`CodeGenerator.fix_code` in `src/core/generation/code_generator.py`) —
and proves or refutes the specification claims about them.

Modelling conventions:
* Python values are `PyValue`; the Python value `None` is `PyValue.none`,
  so a field that "holds None" is indistinguishable from an unset field,
  exactly as in the Python object model.
* The two `exec` calls and the `plot(...)` call run arbitrary generated
  code, so their behaviour is abstracted as oracle fields of a `Snippet`:
  each field records the observable outcome of the corresponding phase
  (what `executor.py` branches on).  An outcome is either normal, an
  `Exception`-derived raise (caught by the `except` clauses of
  `executor.py`), or a `fatal` raise — a `BaseException` that is *not*
  derived from `Exception` (`SystemExit`, `KeyboardInterrupt`), which
  `except SyntaxError` / `except NameError` / `except Exception` all
  fail to catch.
* `sys.stdout` is modelled as a `Nat` threaded through execution: the
  caller's stream is the initial value `st`, the fresh `StringIO`
  redirection buffer is `st + 1`.  Each `sys.stdout = old_stdout`
  statement of the source restores the initial value.
* Strings are processed as `List Char`; the regex scanning of
  `_clean_code` is implemented directly for the two fixed patterns of
  the source, with `re.IGNORECASE` hard-coded for the letters of the
  literal `python` (the only letters in either pattern).
-/

namespace NLSTV

/-- A Python runtime value, as far as the sandbox can observe one.
`PyValue.none` is Python's `None`; `fig` stands for a plotly figure
artifact; `obj` stands for any other object (dataframes, functions…). -/
inductive PyValue where
  | none
  | fig (id : Nat)
  | obj (tag : String)
deriving DecidableEq, Repr

/-- The variable bindings handed to `execute` (`data_context`): a mapping
from identifier to in-memory value, modelled as an association list. -/
abbrev Ctx : Type := List (String × PyValue)

/-- `ExecutionResult` of `src/core/execution/executor.py` lines 18-23:
four fields, with Python defaults `result=None`, `error=None`, `code=""`.
`result` is a `PyValue` because Python stores `None` there, not an
"absent" marker; `error` is `Option String` because every write to it in
the source is a `str` and the default is `None`. -/
structure ExecutionResult where
  success : Bool
  result : PyValue
  error : Option String
  code : String
deriving DecidableEq, Repr

/-- Outcome of calling `local_scope["plot"](data_context)`:
a returned value, an `Exception`-derived raise (its full
`traceback.format_exc()` text), or a `BaseException`-derived raise that
no `except Exception` clause catches. -/
inductive CallOutcome where
  | ret (v : PyValue)
  | exn (trace : String)
  | fatal (e : String)

/-- What the definition phase left under the name `plot` in
`local_scope`: nothing, a non-callable value, or a callable whose
behaviour on the bindings is `f`. -/
inductive PlotBinding where
  | absent
  | noncallable (v : PyValue)
  | callable (f : Ctx → CallOutcome)

/-- Outcome of `exec(clean_code, self.global_context, local_scope)`
(the definition phase, line 85 of `executor.py`): normal completion,
a `SyntaxError` (line 86; `msg` is `str(e)`), a `NameError` (line 90 —
the scope built before the failing name lookup is kept, so a `plot`
defined before the failure is still visible), any other `Exception`
(line 92, re-raised and caught at line 123 as `traceback.format_exc()`),
or a non-`Exception` `BaseException`. -/
inductive DefOutcome where
  | ok (plot : PlotBinding)
  | synErr (msg : String)
  | nameErr (plot : PlotBinding)
  | exn (trace : String)
  | fatal (e : String)

/-- Outcome of the script-mode exec
`exec(clean_code, self.global_context, script_scope)` (line 111):
normal completion with the list of names the snippet wrote into
`script_scope` (which was pre-populated with `data_context.copy()`),
an `Exception`-derived raise, or a fatal raise. -/
inductive ScriptOutcome where
  | ok (assigns : List (String × PyValue))
  | exn (trace : String)
  | fatal (e : String)

/-- The semantic oracle of one cleaned code snippet: `src` is the
cleaned text (`clean_code`), `defPhase` the outcome of the definition
exec, `script` the outcome of the script-mode exec as a function of the
bindings. -/
structure Snippet where
  src : String
  defPhase : DefOutcome
  script : Ctx → ScriptOutcome

/-- Association-list lookup, mirroring a Python dict key lookup. -/
def lookupS (k : String) : List (String × PyValue) → Option PyValue
  | [] => Option.none
  | (k', v) :: rest => if k' = k then Option.some v else lookupS k rest

/-- The value of `"fig"` in `script_scope` after the script exec:
the snippet's own assignment wins, otherwise the pre-populated binding
from `data_context.copy()` (line 110 of `executor.py`). -/
def scopeFig (ctx : Ctx) (assigns : List (String × PyValue)) : Option PyValue :=
  match lookupS "fig" assigns with
  | Option.some v => Option.some v
  | Option.none => lookupS "fig" ctx

/-- Error text of the `except SyntaxError` branch (line 88). -/
def synErrMsg (m : String) : String :=
  "SyntaxError (Check indentation or non-code text): " ++ m

/-- Error text of the `except` branch inside the plot call (line 104). -/
def plotErrMsg (tr : String) : String :=
  "Runtime Error inside plot(): " ++ tr

/-- Error text of the missing-output branch (lines 117-121). -/
def missingOutputMsg : String :=
  "Code executed but neither \x27plot(data_context)\x27 function nor \x27fig\x27 variable was found."

/-- How one call of `execute` ends, seen from the caller: a returned
`ExecutionResult`, or an uncaught exception propagating out.  The `Nat`
is the value of `sys.stdout` at that moment. -/
inductive ExecOutput where
  | ret (r : ExecutionResult) (stdout : Nat)
  | raised (e : String) (stdout : Nat)
deriving DecidableEq, Repr

/-- Steps 2 and 3 of `CodeExecutor.execute` (lines 95-121): the `plot`
dispatch and the script-mode fallback, with `old` the saved
`old_stdout` and `redirected` the `StringIO` buffer currently installed
as `sys.stdout`. -/
def runSteps (s : Snippet) (ctx : Ctx) (plotB : PlotBinding) (old redirected : Nat) : ExecOutput :=
  match plotB with
  | PlotBinding.callable f =>
    -- line 96: "plot" in local_scope and callable(local_scope["plot"])
    match f ctx with
    | CallOutcome.ret v => ExecOutput.ret ⟨true, v, Option.none, s.src⟩ old
    | CallOutcome.exn tr => ExecOutput.ret ⟨false, PyValue.none, Option.some (plotErrMsg tr), s.src⟩ old
    | CallOutcome.fatal e => ExecOutput.raised e redirected
  | _ =>
    -- lines 107-121: Script Mode on script_scope = data_context.copy()
    match s.script ctx with
    | ScriptOutcome.ok asn =>
      match scopeFig ctx asn with
      | Option.some v => ExecOutput.ret ⟨true, v, Option.none, s.src⟩ old
      | Option.none => ExecOutput.ret ⟨false, PyValue.none, Option.some missingOutputMsg, s.src⟩ old
    | ScriptOutcome.exn tr =>
      -- caught by the outer `except Exception` (lines 123-126)
      ExecOutput.ret ⟨false, PyValue.none, Option.some tr, s.src⟩ old
    | ScriptOutcome.fatal e => ExecOutput.raised e redirected

/-- `CodeExecutor.execute` (lines 67-126 of `executor.py`) on an already
cleaned snippet.  `st` is the caller's `sys.stdout`; line 78 installs
the fresh buffer `st + 1`; every `sys.stdout = old_stdout` of the source
restores `st`.  There is no `finally`, so a fatal raise leaves the
buffer installed. -/
def executePy (s : Snippet) (ctx : Ctx) (st : Nat) : ExecOutput :=
  -- old_stdout is `st`; line 78 installs the fresh buffer `st + 1`
  match s.defPhase with
  | DefOutcome.synErr m =>
    ExecOutput.ret ⟨false, PyValue.none, Option.some (synErrMsg m), s.src⟩ st
  | DefOutcome.exn tr =>
    -- `raise e` at line 93, caught at line 123: error = traceback.format_exc()
    ExecOutput.ret ⟨false, PyValue.none, Option.some tr, s.src⟩ st
  | DefOutcome.fatal e => ExecOutput.raised e (st + 1)
  | DefOutcome.ok plotB => runSteps s ctx plotB st (st + 1)
  | DefOutcome.nameErr plotB =>
    -- line 90: `except NameError:` only logs and falls through to step 2
    runSteps s ctx plotB st (st + 1)

/-- Whether the call returned (as opposed to letting an exception
propagate to the caller of `execute`). -/
def ExecOutput.isRet : ExecOutput → Bool
  | ExecOutput.ret _ _ => true
  | ExecOutput.raised _ _ => false

/-- The value of `sys.stdout` when `execute` is over. -/
def ExecOutput.stdoutEnd : ExecOutput → Nat
  | ExecOutput.ret _ st => st
  | ExecOutput.raised _ st => st

/-- Whether a plot-call outcome is a non-`Exception` raise. -/
def CallOutcome.isFatalB : CallOutcome → Bool
  | CallOutcome.fatal _ => true
  | _ => false

/-- Whether a definition-phase outcome is a non-`Exception` raise. -/
def DefOutcome.isFatalB : DefOutcome → Bool
  | DefOutcome.fatal _ => true
  | _ => false

/-- Whether a script-phase outcome is a non-`Exception` raise. -/
def ScriptOutcome.isFatalB : ScriptOutcome → Bool
  | ScriptOutcome.fatal _ => true
  | _ => false

/-- Whether the binding found under `plot` is callable (line 96). -/
def PlotBinding.isCallableB : PlotBinding → Bool
  | PlotBinding.callable _ => true
  | _ => false

/-- A callable `plot` that never raises a non-`Exception`
`BaseException`, whatever bindings it is called on. -/
def PlotBinding.plotNoFatal : PlotBinding → Prop
  | PlotBinding.callable f => ∀ ctx : Ctx, (f ctx).isFatalB = false
  | _ => True

/-- A snippet none of whose phases raises a `BaseException` that is not
an `Exception` (i.e. a snippet that never calls `sys.exit()` and is not
interrupted): all of its failures are catchable by `except Exception`. -/
def Snippet.noFatal (s : Snippet) : Prop :=
  s.defPhase.isFatalB = false
  ∧ (∀ pb : PlotBinding,
      (s.defPhase = DefOutcome.ok pb ∨ s.defPhase = DefOutcome.nameErr pb) → pb.plotNoFatal)
  ∧ (∀ ctx : Ctx, (s.script ctx).isFatalB = false)

/-!
Code extraction: `CodeExecutor._clean_code` (lines 36-65 of
`executor.py`).  The two patterns of the source are
`r'```python(?:[^\n]*\n)(.*?)```'` and `r'```(?:[^\n]*\n)(.*?)```'`,
applied with `re.findall` under `re.DOTALL | re.IGNORECASE`.  For these
two concrete patterns the regex semantics is: at a match position, read
the opening literal (case-insensitively — only the letters of `python`
have case), then the rest of that line up to and including the first
newline, then the shortest run of characters (newlines included) up to
the next three backticks, which is the captured group.  `re.findall`
scans left to right and continues after each full match.
-/

/-- The backtick character. -/
def tick : Char := '`'

/-- Three backticks: the generic opener and the closing delimiter. -/
def fence3 : List Char := [tick, tick, tick]

/-- The letters of the literal `python`. -/
def pyWord : List Char := ['p', 'y', 't', 'h', 'o', 'n']

/-- The python-labeled opener literal. -/
def openPy : List Char := fence3 ++ pyWord

/-- Case-insensitive match of one subject character `c` against one
pattern character `p`.  The only cased pattern characters in either
pattern of the source are the lowercase letters of `python`, so
`re.IGNORECASE` is hard-coded for exactly those. -/
def ciMatch (p c : Char) : Bool :=
  p == c || (p == 'p' && c == 'P') || (p == 'y' && c == 'Y') || (p == 't' && c == 'T')
    || (p == 'h' && c == 'H') || (p == 'o' && c == 'O') || (p == 'n' && c == 'N')

/-- Consume the literal `pat` (case-insensitively) from the front of
`s`; `none` when it does not match. -/
def stripLit : List Char → List Char → Option (List Char)
  | [], s => Option.some s
  | _ :: _, [] => Option.none
  | p :: ps, c :: cs => if ciMatch p c then stripLit ps cs else Option.none

/-- `(?:[^\n]*\n)`: consume the rest of the current line and its
newline; `none` when no newline remains. -/
def dropLine : List Char → Option (List Char)
  | [] => Option.none
  | c :: cs => if c = '\n' then Option.some cs else dropLine cs

/-- `(.*?)` followed by three backticks, under DOTALL: the shortest
capture up to the next closing fence, returned with the text after the
fence; `none` when no fence follows. -/
def capToFence : List Char → Option (List Char × List Char)
  | [] => Option.none
  | c :: cs =>
    match stripLit fence3 (c :: cs) with
    | Option.some rest => Option.some ([], rest)
    | Option.none =>
      match capToFence cs with
      | Option.some (cap, rest) => Option.some (c :: cap, rest)
      | Option.none => Option.none

/-- Try to match the whole pattern (opener, line remainder, lazy capture,
closing fence) at the current position. -/
def tryMatchAt (opener : List Char) (s : List Char) : Option (List Char × List Char) :=
  match stripLit opener s with
  | Option.none => Option.none
  | Option.some r1 =>
    match dropLine r1 with
    | Option.none => Option.none
    | Option.some r2 => capToFence r2

/-- `re.findall` for one of the two patterns: scan left to right,
emitting each capture and resuming after the consumed match.  The fuel
argument only serves structural recursion; each step consumes at least
one character, so `length + 1` fuel never runs out. -/
def scanBlocksF (opener : List Char) : Nat → List Char → List (List Char)
  | 0, _ => []
  | _ + 1, [] => []
  | fuel + 1, c :: cs =>
    match tryMatchAt opener (c :: cs) with
    | Option.some (cap, rest) => cap :: scanBlocksF opener fuel rest
    | Option.none => scanBlocksF opener fuel cs

/-- All captures of the pattern with the given opener, in order. -/
def findBlocks (opener : List Char) (s : List Char) : List (List Char) :=
  scanBlocksF opener (s.length + 1) s

/-!
`textwrap.dedent` and `str.strip`, as used at lines 62 and 65 of
`executor.py`.  CPython's `dedent` first blanks the lines that consist
solely of spaces/tabs, then computes the longest indentation common to
the lines that carry content, then removes that margin from the start of
each line that has it.
-/

/-- A dedent-relevant whitespace character (`[ \t]` in the two regexes
of `textwrap`). -/
def isWT (c : Char) : Bool := c == ' ' || c == '\t'

/-- A non-empty line made only of spaces and tabs
(`_whitespace_only_re`). -/
def wsOnly (l : List Char) : Bool := !l.isEmpty && l.all isWT

/-- `text.split('\n')` semantics: always at least one (possibly empty)
segment, one more segment per newline. -/
def splitNl : List Char → List (List Char)
  | [] => [[]]
  | c :: cs =>
    if c = '\n' then [] :: splitNl cs
    else
      match splitNl cs with
      | l :: ls => (c :: l) :: ls
      | [] => [[c]]

/-- `'\n'.join(...)`: inverse of `splitNl`. -/
def joinNl : List (List Char) → List Char
  | [] => []
  | [l] => l
  | l :: ls => l ++ '\n' :: joinNl ls

/-- The indentation a line contributes to the margin computation
(`_leading_whitespace_re`): its leading spaces/tabs, provided some
non-whitespace character follows on the line. -/
def lineIndent (l : List Char) : Option (List Char) :=
  if (l.dropWhile isWT).isEmpty then Option.none else Option.some (l.takeWhile isWT)

/-- `l` starts with the exact characters of `m`. -/
def leadsWith : List Char → List Char → Bool
  | [], _ => true
  | _ :: _, [] => false
  | p :: ps, c :: cs => p == c && leadsWith ps cs

/-- Longest common leading run of two character lists (the inner loop of
`textwrap.dedent`'s final `else` branch). -/
def commonLead : List Char → List Char → List Char
  | x :: xs, y :: ys => if x = y then x :: commonLead xs ys else []
  | _, _ => []

/-- The margin loop of `textwrap.dedent`: `margin` starts as `None`,
each indent either is kept, replaces the margin, or truncates it to the
common prefix. -/
def marginFold : Option (List Char) → List (List Char) → Option (List Char)
  | m, [] => m
  | Option.none, ind :: rest => marginFold (Option.some ind) rest
  | Option.some m, ind :: rest =>
    if leadsWith m ind then marginFold (Option.some m) rest
    else if leadsWith ind m then marginFold (Option.some ind) rest
    else marginFold (Option.some (commonLead m ind)) rest

/-- `textwrap.dedent`: blank the whitespace-only lines, compute the
common margin of the content lines, strip it where it occurs. -/
def pyDedent (text : List Char) : List Char :=
  let ls := (splitNl text).map (fun l => if wsOnly l then [] else l)
  let indents := ls.filterMap lineIndent
  match marginFold Option.none indents with
  | Option.none => joinNl ls
  | Option.some m =>
    if m.isEmpty then joinNl ls
    else joinNl (ls.map (fun l => if leadsWith m l then l.drop m.length else l))

/-- A character `str.strip()` removes (ASCII and Latin-1 whitespace;
the exotic Unicode space classes do not occur in these texts). -/
def isPySpace (c : Char) : Bool :=
  c == ' ' || c == '\t' || c == '\n' || c == '\r' || c == '\x0b' || c == '\x0c'
    || c == '\x1c' || c == '\x1d' || c == '\x1e' || c == '\x1f' || c == '\x85' || c == '\xa0'

/-- `str.strip()`: drop whitespace from both ends. -/
def pyStrip (s : List Char) : List Char :=
  ((s.dropWhile isPySpace).reverse.dropWhile isPySpace).reverse

/-- `CodeExecutor._clean_code` on character lists: prefer the last
python-labeled block, else the last generic block, and — because the
source tests the chosen block with `if code_block:`, which an empty
string fails — fall back to the dedented, stripped raw text when there
is no block or the chosen block is empty. -/
def cleanCodeL (text : List Char) : List Char :=
  let mPy := findBlocks openPy text
  if !mPy.isEmpty then
    let cb := mPy.getLastD []
    if !cb.isEmpty then pyStrip (pyDedent cb) else pyStrip (pyDedent text)
  else
    let mG := findBlocks fence3 text
    if !mG.isEmpty then
      let cb := mG.getLastD []
      if !cb.isEmpty then pyStrip (pyDedent cb) else pyStrip (pyDedent text)
    else pyStrip (pyDedent text)

/-- `CodeExecutor._clean_code` on `String`. -/
def cleanCode (text : String) : String := String.mk (cleanCodeL text.toList)

/-- Absence of backticks, the well-formedness condition under which a
piece of text can neither open nor close a fenced region. -/
def noTick (l : List Char) : Bool := l.all (fun c => !(c == tick))

/-!
The repair loop: the self-healing block of `handle_query`
(`src/app.py` lines 141-171).  The sandbox and the fixer are passed as
functions: `execF` stands for `executor.execute(·, data_context)` (the
returned `ExecutionResult` is what the loop branches on) and `fixF`
stands for `generator.fix_code(·, ·, summaries)`.  `res.error` is
passed to `fixF` exactly as the source passes it (an `Option String`,
since the field can hold `None`).
-/

/-- What the turn reports when the block is over: how many times
`executor.execute` ran, whether the last result succeeded, and the last
code and error (the exhausted branch of `handle_query` shows
`res.error` and `code`, lines 166-171). -/
structure TurnReport where
  execCount : Nat
  success : Bool
  finalCode : String
  finalError : Option String
deriving DecidableEq, Repr

/-- The `while not res.success and count < retries` loop of
`handle_query` (lines 148-152), recursing on `retries - count`.
Returns the final `code`, the final `res`, and the number of loop
iterations executed (each iteration runs `fix_code` then `execute`). -/
def healLoop (execF : String → ExecutionResult) (fixF : String → Option String → String) :
    Nat → String → ExecutionResult → String × ExecutionResult × Nat
  | 0, code, res => (code, res, 0)
  | remaining + 1, code, res =>
    if res.success then (code, res, 0)
    else
      let code2 := fixF code res.error
      let res2 := execF code2
      let out := healLoop execF fixF remaining code2 res2
      (out.1, out.2.1, out.2.2 + 1)

/-- Lines 141-152 of `handle_query`: one initial `executor.execute`,
then the self-healing loop with `retries = 3`, `count = 0`. -/
def handleQueryRun (execF : String → ExecutionResult) (fixF : String → Option String → String)
    (code0 : String) : TurnReport :=
  let res0 := execF code0
  let out := healLoop execF fixF 3 code0 res0
  ⟨out.2.2 + 1, out.2.1.success, out.1, out.2.1.error⟩

/-!
The fix request: `CodeGenerator.fix_code` and
`CodeGenerator._build_system_prompt`
(`src/core/generation/code_generator.py` lines 13-149).  The summary
dictionaries are modelled with their fields already resolved (the
source reads `variable_name`, `file_info.name`, per-column `dtype` and
semantic tag with `.get` defaults; the resolved values are what enters
the prompt).  The constant texts are the f-string skeletons of the
source; apostrophes are written `\x27`.
-/

/-- One column of a summary, as the prompt renders it: name, dtype and
semantic tag. -/
structure ColInfo where
  name : String
  dtype : String
  tag : String

/-- One dataset summary, as `_build_system_prompt` consumes it. -/
structure DataSummary where
  varName : String
  fileName : String
  cols : List ColInfo

/-- One chat message handed to `self.llm.chat`. -/
structure ChatMsg where
  role : String
  content : String

/-- `'\n'.join` on strings. -/
def joinLinesStr : List String → String
  | [] => ""
  | [l] => l
  | l :: ls => l ++ "\n" ++ joinLinesStr ls

/-- `'\n\n'.join` on strings. -/
def joinBlankStr : List String → String
  | [] => ""
  | [l] => l
  | l :: ls => l ++ "\n\n" ++ joinBlankStr ls

/-- One line of the per-column context
(`f"  - {col} (Type: {dtype}, Semantic: {tag})"`, line 35). -/
def columnLine (c : ColInfo) : String :=
  "  - " ++ c.name ++ " (Type: " ++ c.dtype ++ ", Semantic: " ++ c.tag ++ ")"

/-- The per-dataframe description
(`f"DataFrame \x60{var_name}\x60 (Source: {file_name}):\n{columns_text}"`,
line 40). -/
def contextDesc (s : DataSummary) : String :=
  "DataFrame `" ++ s.varName ++ "` (Source: " ++ s.fileName ++ "):\n"
    ++ joinLinesStr (s.cols.map columnLine)

/-- The constant text of the system prompt before the interpolated
`{full_context_text}` (lines 46-52 of the f-string). -/
def sysPromptPre : String :=
  "\n        You are an expert Python Data Analyst. Your goal is to write Python code to visualize data based on user queries.\n\n        === AVAILABLE DATASETS ===\n        The following pandas DataFrames are loaded in memory and ready to use:\n\n        "

/-- The constant text of the system prompt after the interpolated
`{full_context_text}` (lines 54-97 of the f-string): the constraint
list and the worked multi-file example. -/
def sysPromptPost : String :=
  "\n\n         === CONSTRAINTS (MUST FOLLOW) ===\n        1. Library: Use ONLY `plotly.express` (as px).\n        2. Input: Use the variable names provided above directly (e.g., `df_trips`, `df_zones`). \n        3. Multi-File: \n           - You can merge dataframes if needed. Example: `df_merged = pd.merge(df_trips, df_zones, on=\x27LocationID\x27)`.\n           - If merging, ensure column names match or use `left_on`/`right_on`.\n        4. Output: Assign final figure to `fig`.\n\n        5. [IMPORTANT] Big Data Handling:\n           - The DataFrames might contain MILLIONS of rows.\n           - FOR AGGREGATION (histogram, bar, line, groupby): Use FULL data. Do NOT sample.\n             Example: `fig = px.bar(df.groupby(\x27zone\x27).size()...)` is SAFE.\n           - FOR SCATTER/MAPS (scatter, scatter_mapbox): \n             Check data size. If rows > 20000, YOU MUST SAMPLE.\n             Example: \n             ```python\n             # Assume we are using \x27df_main\x27 for plotting\n             if len(df_main) > 20000:\n                 df_plot = df_main.sample(20000)\n             else:\n                 df_plot = df_main\n             fig = px.scatter(df_plot, ...)\n             ```\n        6. Geo-Data:\n           - If using GeoPandas (DataFrames with \x27geometry\x27), convert to WGS84 before plotting if needed: `df = df.to_crs(epsg=4326)`.\n           - For maps, use `px.choropleth_mapbox` or `px.scatter_mapbox`.\n           - Set `mapbox_style=\x22open-street-map\x22` or \x22carto-positron\x22.\n        7. Formatting: Return ONLY the raw Python code inside a markdown block. NO explanations.\n\n        === EXAMPLE (Multi-File) ===\n        User: \x22Join trips with zones and map the count\x22\n        Response:\n        ```python\n        import plotly.express as px\n        import pandas as pd\n        # Aggregate trips\n        df_counts = df_trips.groupby(\x27PULocationID\x27).size().reset_index(name=\x27count\x27)\n        # Merge with geometry\n        df_map = pd.merge(df_zones, df_counts, left_on=\x27LocationID\x27, right_on=\x27PULocationID\x27)\n        # Plot\n        df_map = df_map.to_crs(epsg=4326)\n        fig = px.choropleth_mapbox(df_map, geojson=df_map.geometry, locations=df_map.index, color=\x27count\x27, mapbox_style=\x22carto-positron\x22)\n        ```\n        "

/-- `CodeGenerator._build_system_prompt`: the constant skeleton around
the joined per-dataframe descriptions. -/
def buildSystemPrompt (summaries : List DataSummary) : String :=
  sysPromptPre ++ joinBlankStr (summaries.map contextDesc) ++ sysPromptPost

/-- The constant text of the fix prompt before `{original_code}`
(lines 128-131 of `fix_code`). -/
def fixPromptA : String :=
  "\n        The code you generated previously failed to execute.\n\n        === BROKEN CODE ===\n        "

/-- The constant text between `{original_code}` and `{error_trace}`. -/
def fixPromptB : String :=
  "\n\n        === ERROR TRACEBACK ===\n        "

/-- The constant text after `{error_trace}` (the three-step
instruction). -/
def fixPromptC : String :=
  "\n\n        === INSTRUCTION ===\n        1. Analyze the error message to understand what went wrong (e.g., wrong column name, syntax error, library misuse, variable name error).\n        2. Fix the code.\n        3. Return ONLY the fixed Python code block.\n        "

/-- The `fix_prompt` f-string of `fix_code` (lines 128-141): a fixed
template with the broken code and the error trace substituted in
verbatim. -/
def fixUserPrompt (original_code error_trace : String) : String :=
  fixPromptA ++ original_code ++ fixPromptB ++ error_trace ++ fixPromptC

/-- The message list `fix_code` sends to the model (lines 143-146):
the rebuilt system prompt and the fix prompt. -/
def fixCodeMessages (original_code error_trace : String) (summaries : List DataSummary) :
    List ChatMsg :=
  [⟨"system", buildSystemPrompt summaries⟩, ⟨"user", fixUserPrompt original_code error_trace⟩]

/-- `n` occurs contiguously inside `h`. -/
def strContains (h n : String) : Prop := ∃ x y : String, h = x ++ n ++ y

/-!
Concrete snippets used by the counterexamples and witnesses below.
Each models the recorded behaviour of an actual Python snippet under
`CodeExecutor.execute`'s two `exec` calls.
-/

/-- `def plot(data_context):\n    pass` — the definition phase defines a
callable `plot` that returns `None`; run as a script it would define
`plot` and no `fig`. -/
def snipPlotNone : Snippet :=
  ⟨"def plot(data_context):\n    pass",
   DefOutcome.ok (PlotBinding.callable (fun _ => CallOutcome.ret PyValue.none)),
   fun _ => ScriptOutcome.ok [("plot", PyValue.obj "function")]⟩

/-- `raise SystemExit` — the definition-phase `exec` raises
`SystemExit`, which derives from `BaseException` but not `Exception`,
so none of the `except` clauses of `execute` catches it. -/
def snipRaiseExit : Snippet :=
  ⟨"raise SystemExit",
   DefOutcome.fatal "SystemExit",
   fun _ => ScriptOutcome.fatal "SystemExit"⟩

/-- `import sys\ndef plot(data_context):\n    sys.exit(0)` — the
definition phase succeeds and leaves a callable `plot`; calling it
raises `SystemExit`. -/
def snipPlotExit : Snippet :=
  ⟨"import sys\ndef plot(data_context):\n    sys.exit(0)",
   DefOutcome.ok (PlotBinding.callable (fun _ => CallOutcome.fatal "SystemExit")),
   fun _ => ScriptOutcome.ok [("sys", PyValue.obj "module"), ("plot", PyValue.obj "function")]⟩

/-- `def plot(data_context):\n    return px.bar()\nundefined_name` —
the definition phase defines a callable `plot` (returning a figure) and
then raises `NameError` on the bare `undefined_name`; run in script
mode the same snippet raises the `NameError` again. -/
def snipDefThenNameErr : Snippet :=
  ⟨"def plot(data_context):\n    return px.bar()\nundefined_name",
   DefOutcome.nameErr (PlotBinding.callable (fun _ => CallOutcome.ret (PyValue.fig 1))),
   fun _ => ScriptOutcome.exn "Traceback (most recent call last):\n  File \x22<string>\x22, line 3, in <module>\nNameError: name \x27undefined_name\x27 is not defined\n"⟩

/-- The same snippet's script-phase behaviour packaged with a clean
(no-`NameError`) definition phase and no `plot` binding: what execution
would look like if the snippet really were dispatched to flat-script
mode. -/
def snipDefThenNameErrAsScript : Snippet :=
  ⟨"def plot(data_context):\n    return px.bar()\nundefined_name",
   DefOutcome.ok PlotBinding.absent,
   fun _ => ScriptOutcome.exn "Traceback (most recent call last):\n  File \x22<string>\x22, line 3, in <module>\nNameError: name \x27undefined_name\x27 is not defined\n"⟩

/-- `pass` — defines nothing, assigns nothing, raises nothing. -/
def snipPass : Snippet :=
  ⟨"pass", DefOutcome.ok PlotBinding.absent, fun _ => ScriptOutcome.ok []⟩

/-- A bindings mapping that happens to carry the key `fig`. -/
def ctxWithFig : Ctx := [("fig", PyValue.fig 7)]

/-- `fig = px.bar(df, x=\x27a\x27, y=\x27b\x27)` — a script snippet that
assigns the designated output variable. -/
def snipScriptFig : Snippet :=
  ⟨"fig = px.bar(df, x=\x27a\x27, y=\x27b\x27)",
   DefOutcome.nameErr PlotBinding.absent,
   fun _ => ScriptOutcome.ok [("fig", PyValue.fig 3)]⟩

/-- `def plot(data_context):\n    return px.scatter()` — a clean
callable-mode snippet returning a figure. -/
def snipPlotFig : Snippet :=
  ⟨"def plot(data_context):\n    return px.scatter()",
   DefOutcome.ok (PlotBinding.callable (fun _ => CallOutcome.ret (PyValue.fig 5))),
   fun _ => ScriptOutcome.ok [("plot", PyValue.obj "function")]⟩

/-- `x = (` — a snippet whose compilation fails; `str(e)` of the
`SyntaxError` is recorded. -/
def snipSynErr : Snippet :=
  ⟨"x = (",
   DefOutcome.synErr "\x27(\x27 was never closed (<string>, line 1)",
   fun _ => ScriptOutcome.exn "SyntaxError"⟩

/-- `raise ValueError(\x27boom\x27)` — the definition-phase `exec`
raises an ordinary `Exception`, re-raised at line 93 and caught by the
outer handler as a full traceback. -/
def snipValueErr : Snippet :=
  ⟨"raise ValueError(\x27boom\x27)",
   DefOutcome.exn "Traceback (most recent call last):\n  File \x22<string>\x22, line 1, in <module>\nValueError: boom\n",
   fun _ => ScriptOutcome.exn "Traceback (most recent call last):\n  File \x22<string>\x22, line 1, in <module>\nValueError: boom\n"⟩

/-- `def plot(data_context):\n    return 1/0` — callable `plot` whose
call raises `ZeroDivisionError`. -/
def snipPlotRaises : Snippet :=
  ⟨"def plot(data_context):\n    return 1/0",
   DefOutcome.ok (PlotBinding.callable (fun _ => CallOutcome.exn "Traceback (most recent call last):\n  File \x22<string>\x22, line 2, in plot\nZeroDivisionError: division by zero\n")),
   fun _ => ScriptOutcome.ok [("plot", PyValue.obj "function")]⟩

/-- `y = df[\x27missing\x27]` — a script snippet that raises a
`KeyError` when run (its definition phase raises `NameError` on `df`,
which only exists in the script scope). -/
def snipScriptRaises : Snippet :=
  ⟨"y = df[\x27missing\x27]",
   DefOutcome.ok PlotBinding.absent,
   fun _ => ScriptOutcome.exn "Traceback (most recent call last):\n  File \x22<string>\x22, line 1, in <module>\nKeyError: \x27missing\x27\n"⟩

/-- `y = 1 + 1` — runs fine, defines no `plot`, assigns no `fig`. -/
def snipNoOutput : Snippet :=
  ⟨"y = 1 + 1", DefOutcome.ok PlotBinding.absent, fun _ => ScriptOutcome.ok [("y", PyValue.obj "int")]⟩

/-- An always-failing sandbox for exercising the repair loop: every
execution returns `success=False` with an error derived from the code. -/
def alwaysFailExec (c : String) : ExecutionResult :=
  ⟨false, PyValue.none, Option.some ("err:" ++ c), c⟩

/-- A fixer that appends a marker, so successive candidates are
distinguishable. -/
def markFix (c : String) (_e : Option String) : String := c ++ "F"

/-- A concrete dataset summary for exercising the prompt builder. -/
def sumTrips : DataSummary :=
  ⟨"df_trips", "trips.parquet", [⟨"fare_amount", "float64", "BIZ_PRICE"⟩]⟩

/-!
Helper lemmas about the sandbox dispatch and the block scanner.
-/

/-- Both steps of the dispatch return (rather than raise) when neither
the plot call nor the script exec raises a non-`Exception`. -/
theorem runSteps_isRet (s : Snippet) (ctx : Ctx) (pb : PlotBinding) (old red : Nat)
    (hpb : pb.plotNoFatal) (hs : (s.script ctx).isFatalB = false) :
    (runSteps s ctx pb old red).isRet = true := by
  cases pb with
  | callable f =>
    simp only [PlotBinding.plotNoFatal] at hpb
    cases hc : f ctx with
    | ret v => simp [runSteps, hc, ExecOutput.isRet]
    | exn tr => simp [runSteps, hc, ExecOutput.isRet]
    | fatal e => have hx := hpb ctx; rw [hc] at hx; simp [CallOutcome.isFatalB] at hx
  | absent =>
    cases hsc : s.script ctx with
    | ok asn => cases hf : scopeFig ctx asn <;> simp [runSteps, hsc, hf, ExecOutput.isRet]
    | exn tr => simp [runSteps, hsc, ExecOutput.isRet]
    | fatal e => rw [hsc] at hs; simp [ScriptOutcome.isFatalB] at hs
  | noncallable v =>
    cases hsc : s.script ctx with
    | ok asn => cases hf : scopeFig ctx asn <;> simp [runSteps, hsc, hf, ExecOutput.isRet]
    | exn tr => simp [runSteps, hsc, ExecOutput.isRet]
    | fatal e => rw [hsc] at hs; simp [ScriptOutcome.isFatalB] at hs

/-- Every returning exit path of `execute` restores `sys.stdout` to the
value saved in `old_stdout` before returning. -/
theorem executePy_ret_stdout (s : Snippet) (ctx : Ctx) (st : Nat) (r : ExecutionResult)
    (st2 : Nat) (h : executePy s ctx st = ExecOutput.ret r st2) : st2 = st := by
  unfold executePy runSteps at h
  repeat' split at h
  all_goals first
    | (injection h with h1 h2; exact h2.symm)
    | exact (ExecOutput.noConfusion h)

/-- A character always case-insensitively matches itself. -/
theorem ciMatch_self (c : Char) : ciMatch c c = true := by simp [ciMatch]

/-- The literal matcher consumes exactly its own text. -/
theorem stripLit_self (w s : List Char) : stripLit w (w ++ s) = Option.some s := by
  induction w with
  | nil => rfl
  | cons c cs ih => simp [stripLit, ciMatch_self, ih]

/-- Only a backtick matches the backtick of a pattern. -/
theorem ciMatch_tick (c : Char) (hc : c ≠ tick) : ciMatch tick c = false := by
  simp [ciMatch, tick] at *
  exact fun h => absurd h.symm hc

/-- Splitting `noTick` over a cons. -/
theorem noTick_cons {x : Char} {xs : List Char} (h : noTick (x :: xs) = true) :
    x ≠ tick ∧ noTick xs = true := by
  simp [noTick] at h ⊢
  exact h

/-- No pattern whose opener starts with a backtick can match at a
position holding any other character. -/
theorem tryMatchAt_none_head (opener tl : List Char) (hop : opener = tick :: tl)
    (c : Char) (cs : List Char) (hc : c ≠ tick) :
    tryMatchAt opener (c :: cs) = Option.none := by
  subst hop
  simp [tryMatchAt, stripLit, ciMatch_tick c hc]

/-- The lazy capture of a backtick-free region stops exactly at the
closing fence. -/
theorem capToFence_app (a r : List Char) (ha : noTick a = true) :
    capToFence (a ++ (fence3 ++ r)) = Option.some (a, r) := by
  induction a with
  | nil =>
    show capToFence (tick :: (tick :: (tick :: r))) = Option.some ([], r)
    have h : stripLit fence3 (tick :: (tick :: (tick :: r))) = Option.some r :=
      stripLit_self fence3 r
    simp [capToFence, h]
  | cons x xs ih =>
    obtain ⟨hx, hxs⟩ := noTick_cons ha
    show capToFence (x :: (xs ++ (fence3 ++ r))) = Option.some (x :: xs, r)
    have hs : stripLit fence3 (x :: (xs ++ (fence3 ++ r))) = Option.none := by
      simp [fence3, stripLit, ciMatch_tick x hx]
    simp [capToFence, hs, ih hxs]

/-- The scan walks through a backtick-free stretch without matching,
spending one unit of fuel per character. -/
theorem scanSkip (opener tl : List Char) (hop : opener = tick :: tl) :
    ∀ (p : List Char) (fuel : Nat) (rest : List Char), noTick p = true → p.length ≤ fuel →
    scanBlocksF opener fuel (p ++ rest) = scanBlocksF opener (fuel - p.length) rest := by
  intro p
  induction p with
  | nil => intro fuel rest _ _; simp
  | cons x xs ih =>
    intro fuel rest hp hlen
    obtain ⟨hx, hxs⟩ := noTick_cons hp
    cases fuel with
    | zero => simp at hlen
    | succ f =>
      show scanBlocksF opener (f + 1) (x :: (xs ++ rest)) = _
      rw [show (f + 1) - (x :: xs).length = f - xs.length by simp]
      rw [← ih f rest hxs (by simpa using hlen)]
      simp [scanBlocksF, tryMatchAt_none_head opener tl hop x _ hx]

/-- At a well-formed fenced block the scan emits the block's
backtick-free body and resumes after the closing fence. -/
theorem scanMatch (opener tl : List Char) (hop : opener = tick :: tl) (a r : List Char)
    (fuel : Nat) (ha : noTick a = true) :
    scanBlocksF opener (fuel + 1) (opener ++ ('\n' :: (a ++ (fence3 ++ r))))
      = a :: scanBlocksF opener fuel r := by
  have hm : tryMatchAt opener (opener ++ ('\n' :: (a ++ (fence3 ++ r)))) = Option.some (a, r) := by
    unfold tryMatchAt
    rw [stripLit_self]
    simp [dropLine, capToFence_app a r ha]
  subst hop
  have hm' : tryMatchAt (tick :: tl) (tick :: (tl ++ ('\n' :: (a ++ (fence3 ++ r)))))
      = Option.some (a, r) := hm
  show scanBlocksF (tick :: tl) (fuel + 1) (tick :: (tl ++ ('\n' :: (a ++ (fence3 ++ r))))) = _
  simp [scanBlocksF, hm']

/-- A backtick-free tail yields no further matches, under any fuel. -/
theorem scanNone (opener tl : List Char) (hop : opener = tick :: tl) :
    ∀ (t : List Char) (fuel : Nat), noTick t = true → scanBlocksF opener fuel t = [] := by
  intro t
  induction t with
  | nil => intro fuel _; cases fuel <;> rfl
  | cons x xs ih =>
    intro fuel ht
    obtain ⟨hx, hxs⟩ := noTick_cons ht
    cases fuel with
    | zero => rfl
    | succ f =>
      simp [scanBlocksF, tryMatchAt_none_head opener tl hop x xs hx, ih f hxs]

/-- A text made of prose, a first fenced region `a`, prose, a second
fenced region `b` and trailing prose — all backtick-free — scans to
exactly the two captures, in order. -/
theorem scanTwo (opener tl : List Char) (hop : opener = tick :: tl)
    (p a m b t : List Char) (fuel : Nat)
    (hp : noTick p = true) (ha : noTick a = true) (hm : noTick m = true)
    (hb : noTick b = true) (ht : noTick t = true)
    (hfuel : p.length + m.length + 2 ≤ fuel) :
    scanBlocksF opener fuel
      (p ++ (opener ++ ('\n' :: (a ++ (fence3 ++ (m ++ (opener ++ ('\n' :: (b ++ (fence3 ++ t))))))))))
      = [a, b] := by
  rw [scanSkip opener tl hop p fuel _ hp (by omega)]
  obtain ⟨f1, hf1⟩ : ∃ f1, fuel - p.length = f1 + 1 := ⟨fuel - p.length - 1, by omega⟩
  rw [hf1]
  rw [scanMatch opener tl hop a _ f1 ha]
  rw [scanSkip opener tl hop m f1 _ hm (by omega)]
  obtain ⟨f2, hf2⟩ : ∃ f2, f1 - m.length = f2 + 1 := ⟨f1 - m.length - 1, by omega⟩
  rw [hf2]
  rw [scanMatch opener tl hop b _ f2 hb]
  rw [scanNone opener tl hop t f2 ht]

/-- `re.findall` on a two-block reply returns the two captures. -/
theorem findBlocks_two (opener tl : List Char) (hop : opener = tick :: tl)
    (p a m b t : List Char)
    (hp : noTick p = true) (ha : noTick a = true) (hm : noTick m = true)
    (hb : noTick b = true) (ht : noTick t = true) :
    findBlocks opener
      (p ++ (opener ++ ('\n' :: (a ++ (fence3 ++ (m ++ (opener ++ ('\n' :: (b ++ (fence3 ++ t))))))))))
      = [a, b] := by
  unfold findBlocks
  apply scanTwo opener tl hop p a m b t _ hp ha hm hb ht
  simp [List.length_append]
  omega

/-- Joining with blank lines keeps every member as a contiguous
substring. -/
theorem joinBlankStr_contains (l : List String) (s : String) (hs : s ∈ l) :
    ∃ x y : String, joinBlankStr l = x ++ s ++ y := by
  induction l with
  | nil => cases hs
  | cons a tl ih =>
    cases hs with
    | head =>
      cases tl with
      | nil => exact ⟨"", "", by simp [joinBlankStr]⟩
      | cons b t2 =>
        exact ⟨"", "\n\n" ++ joinBlankStr (b :: t2), by simp [joinBlankStr, String.append_assoc]⟩
    | tail _ hmem =>
      obtain ⟨x, y, hxy⟩ := ih hmem
      cases tl with
      | nil => cases hmem
      | cons b t2 =>
        exact ⟨a ++ "\n\n" ++ x, y, by simp [joinBlankStr, hxy, String.append_assoc]⟩

/-!
The claims.
-/

/-- Claim C1, counterexample.  The snippet
`def plot(data_context):\n    pass` defines a callable `plot` whose
return value is `None`; `execute` then returns `success=True` with
`result=None` and `error=None` (line 101 of `executor.py` stores the
call's return value unchecked).  So on a success the result artifact
can be null: "exactly one of (result artifact, error text) set" fails
in the "never neither" direction. -/
theorem c1_counterexample :
    executePy snipPlotNone ([] : Ctx) 0
      = ExecOutput.ret
          ⟨true, PyValue.none, Option.none, "def plot(data_context):\n    pass"⟩ 0 := rfl

/-- Claim C1, amended.  For every returned `ExecutionResult`: the error
text is set exactly when `success` is false, and on failure the result
is null.  (On success the result is whatever the snippet produced,
which may itself be `None` — the part the original claim overstates.) -/
theorem c1_theorem (s : Snippet) (ctx : Ctx) (st : Nat) (r : ExecutionResult) (st2 : Nat)
    (h : executePy s ctx st = ExecOutput.ret r st2) :
    r.error.isSome = !r.success ∧ (r.success = false → r.result = PyValue.none) := by
  unfold executePy runSteps at h
  repeat' split at h
  all_goals first
    | (injection h with h1 h2; subst h1; simp)
    | exact (ExecOutput.noConfusion h)

/-- Claim C1, witness: the amended invariant evaluated on the concrete
successful plot-function snippet. -/
theorem c1_witness :
    (ExecutionResult.mk true (PyValue.fig 5) Option.none
        "def plot(data_context):\n    return px.scatter()").error.isSome
      = !(ExecutionResult.mk true (PyValue.fig 5) Option.none
        "def plot(data_context):\n    return px.scatter()").success
    ∧ ((ExecutionResult.mk true (PyValue.fig 5) Option.none
          "def plot(data_context):\n    return px.scatter()").success = false
        → (ExecutionResult.mk true (PyValue.fig 5) Option.none
            "def plot(data_context):\n    return px.scatter()").result = PyValue.none) :=
  c1_theorem snipPlotFig ([] : Ctx) 0
    (ExecutionResult.mk true (PyValue.fig 5) Option.none
      "def plot(data_context):\n    return px.scatter()") 0 rfl

/-- Claim C2, counterexample.  The snippet `raise SystemExit` raises a
`BaseException` that is not an `Exception`; none of the handlers at
lines 86, 90, 92 and 123 of `executor.py` catches it, so `execute`
does not return an `ExecutionResult` — the exception propagates to the
caller (with the stdout redirection still installed). -/
theorem c2_counterexample :
    executePy snipRaiseExit ([] : Ctx) 0 = ExecOutput.raised "SystemExit" 1
    ∧ (executePy snipRaiseExit ([] : Ctx) 0).isRet = false :=
  ⟨rfl, rfl⟩

/-- Claim C2, amended.  For every snippet whose failures are all
`Exception`-derived (no `SystemExit`/`KeyboardInterrupt` anywhere),
`execute` returns an `ExecutionResult` rather than raising, for every
bindings mapping: all such failures are converted by the `except`
clauses. -/
theorem c2_theorem (s : Snippet) (ctx : Ctx) (st : Nat) (hnf : s.noFatal) :
    (executePy s ctx st).isRet = true := by
  obtain ⟨h1, h2, h3⟩ := hnf
  cases hd : s.defPhase with
  | synErr m => simp [executePy, hd, ExecOutput.isRet]
  | exn tr => simp [executePy, hd, ExecOutput.isRet]
  | fatal e => rw [hd] at h1; simp [DefOutcome.isFatalB] at h1
  | ok pb =>
    have hr := runSteps_isRet s ctx pb st (st + 1) (h2 pb (Or.inl hd)) (h3 ctx)
    simp [executePy, hd, hr]
  | nameErr pb =>
    have hr := runSteps_isRet s ctx pb st (st + 1) (h2 pb (Or.inr hd)) (h3 ctx)
    simp [executePy, hd, hr]

/-- Claim C2, witness: a fatal-free script snippet returns. -/
theorem c2_witness :
    (executePy snipScriptFig [("df", PyValue.obj "DataFrame")] 0).isRet = true := by
  apply c2_theorem
  refine ⟨rfl, ?_, fun ctx => rfl⟩
  intro pb h
  rcases h with h | h
  · exact DefOutcome.noConfusion h
  · injection h with h'
    rw [← h']
    trivial

/-- Claim C3: with `retries = 3` and `count = 0` per turn (lines
146-147 of `app.py`), an always-failing sandbox gives exactly
`3 + 1` executions — the initial one at line 142 plus three loop
iterations — after which the loop stops with `success = False` and the
turn reports the last error text and the last (thrice-fixed) candidate
code. -/
theorem c3_theorem (execF : String → ExecutionResult) (fixF : String → Option String → String)
    (code0 : String) (hfail : ∀ c : String, (execF c).success = false) :
    (handleQueryRun execF fixF code0).execCount = 3 + 1
    ∧ (handleQueryRun execF fixF code0).success = false
    ∧ (handleQueryRun execF fixF code0).finalCode
        = fixF (fixF (fixF code0 (execF code0).error)
              (execF (fixF code0 (execF code0).error)).error)
            (execF (fixF (fixF code0 (execF code0).error)
              (execF (fixF code0 (execF code0).error)).error)).error
    ∧ (handleQueryRun execF fixF code0).finalError
        = (execF ((handleQueryRun execF fixF code0).finalCode)).error := by
  simp [handleQueryRun, healLoop, hfail]

/-- Claim C3, witness: the loop evaluated on a concrete always-failing
sandbox — four executions, exhausted, final code fixed three times. -/
theorem c3_witness :
    (handleQueryRun alwaysFailExec markFix "c").execCount = 4
    ∧ (handleQueryRun alwaysFailExec markFix "c").success = false
    ∧ (handleQueryRun alwaysFailExec markFix "c").finalCode = "cFFF"
    ∧ (handleQueryRun alwaysFailExec markFix "c").finalError = Option.some "err:cFFF" := by
  have h := c3_theorem alwaysFailExec markFix "c" (fun c => rfl)
  exact ⟨h.1, h.2.1, h.2.2.1, h.2.2.2⟩

/-- Claim C4, counterexample.  The snippet
`def plot(data_context):\n    return px.bar()\nundefined_name` raises
`NameError` during the definition phase, yet `plot` was already
defined, so `execute` dispatches the function-call path and succeeds
with the plot call's figure — it does *not* fall back to flat-script
mode (which, as the second conjunct shows, would have re-raised the
`NameError` and failed).  The claim's "NameError is treated as
script-style" is therefore wrong whenever a callable `plot` was
defined before the failing name. -/
theorem c4_counterexample :
    executePy snipDefThenNameErr ([] : Ctx) 0
      = ExecOutput.ret
          ⟨true, PyValue.fig 1, Option.none,
            "def plot(data_context):\n    return px.bar()\nundefined_name"⟩ 0
    ∧ executePy snipDefThenNameErrAsScript ([] : Ctx) 0
      = ExecOutput.ret
          ⟨false, PyValue.none,
            Option.some "Traceback (most recent call last):\n  File \x22<string>\x22, line 3, in <module>\nNameError: name \x27undefined_name\x27 is not defined\n",
            "def plot(data_context):\n    return px.bar()\nundefined_name"⟩ 0 :=
  ⟨rfl, rfl⟩

/-- Claim C4, amended.  (1) Whenever the definition phase leaves a
callable `plot` in scope — whether it completed or raised `NameError`
on a later statement — `execute` dispatches the function-call path:
`plot` is invoked on the full bindings and its return value is the
result, regardless of the snippet's script-mode behaviour.
(2) A `NameError` during the definition phase is not a hard error:
execution continues exactly as if the definition phase had completed
with the same scope (so flat-script fallback happens only when no
callable `plot` is in scope). -/
theorem c4_theorem (s : Snippet) (ctx : Ctx) (st : Nat) :
    (∀ (f : Ctx → CallOutcome) (v : PyValue),
      (s.defPhase = DefOutcome.ok (PlotBinding.callable f)
        ∨ s.defPhase = DefOutcome.nameErr (PlotBinding.callable f)) →
      f ctx = CallOutcome.ret v →
      executePy s ctx st = ExecOutput.ret ⟨true, v, Option.none, s.src⟩ st)
    ∧ (∀ pb : PlotBinding, s.defPhase = DefOutcome.nameErr pb →
        executePy s ctx st = executePy ⟨s.src, DefOutcome.ok pb, s.script⟩ ctx st) := by
  constructor
  · rintro f v (hd | hd) hf <;> simp [executePy, hd, runSteps, hf]
  · intro pb hd
    simp [executePy, hd, runSteps]

/-- Claim C4, witness: both amended parts evaluated on concrete
snippets. -/
theorem c4_witness :
    executePy snipPlotFig ([] : Ctx) 0
      = ExecOutput.ret
          ⟨true, PyValue.fig 5, Option.none, "def plot(data_context):\n    return px.scatter()"⟩ 0
    ∧ executePy snipScriptFig ([] : Ctx) 0
      = executePy ⟨snipScriptFig.src, DefOutcome.ok PlotBinding.absent, snipScriptFig.script⟩
          ([] : Ctx) 0 := by
  refine ⟨?_, ?_⟩
  · exact (c4_theorem snipPlotFig ([] : Ctx) 0).1
      (fun _ => CallOutcome.ret (PyValue.fig 5)) (PyValue.fig 5) (Or.inl rfl) rfl
  · exact (c4_theorem snipScriptFig ([] : Ctx) 0).2 PlotBinding.absent rfl

/-- Claim C5, counterexample.  Because `script_scope` starts as
`data_context.copy()` (line 110 of `executor.py`), a bindings mapping
that itself carries the key `fig` makes the do-nothing snippet `pass`
"succeed": `"fig" in script_scope` holds and the pre-existing binding
is returned as the artifact, so the claim's "for every bindings
mapping … success=false with the missing-output error" fails. -/
theorem c5_counterexample :
    executePy snipPass ctxWithFig 0
      = ExecOutput.ret ⟨true, PyValue.fig 7, Option.none, "pass"⟩ 0 := rfl

/-- Claim C5, amended.  For every bindings mapping *that does not bind
the name `fig`* and every snippet that runs without raising, defines no
callable `plot` and assigns no `fig`, `execute` returns
`success=false` with exactly the missing-output message (not a
runtime-exception text). -/
theorem c5_theorem (s : Snippet) (ctx : Ctx) (st : Nat) (pb : PlotBinding)
    (asn : List (String × PyValue))
    (hd : s.defPhase = DefOutcome.ok pb) (hnc : pb.isCallableB = false)
    (hs : s.script ctx = ScriptOutcome.ok asn)
    (h1 : lookupS "fig" asn = Option.none) (h2 : lookupS "fig" ctx = Option.none) :
    executePy s ctx st
      = ExecOutput.ret ⟨false, PyValue.none, Option.some missingOutputMsg, s.src⟩ st := by
  have hsf : scopeFig ctx asn = Option.none := by simp [scopeFig, h1, h2]
  cases pb with
  | callable f => simp [PlotBinding.isCallableB] at hnc
  | absent => simp [executePy, hd, runSteps, hs, hsf]
  | noncallable v => simp [executePy, hd, runSteps, hs, hsf]

/-- Claim C5, witness: the missing-output result on the concrete
snippet `y = 1 + 1` under empty bindings. -/
theorem c5_witness :
    executePy snipNoOutput ([] : Ctx) 0
      = ExecOutput.ret ⟨false, PyValue.none, Option.some missingOutputMsg, "y = 1 + 1"⟩ 0 :=
  c5_theorem snipNoOutput ([] : Ctx) 0 PlotBinding.absent [("y", PyValue.obj "int")]
    rfl rfl rfl (by decide) (by decide)

/-- Claim C6, counterexample.  In the reply
`x\n```python\nA\n```\n```python\n```` the last python-labeled region
is the empty string, and the `if code_block:` test at line 59 of
`executor.py` treats the empty capture as "no block": extraction
returns the dedented trimmed *raw text*, not the (empty) dedented
trimmed last region.  So last-block-wins fails when the last matching
region is empty. -/
theorem c6_counterexample :
    findBlocks openPy ("x\n```python\nA\n```\n```python\n```".toList)
      = ["A\n".toList, ([] : List Char)]
    ∧ cleanCode "x\n```python\nA\n```\n```python\n```" = "x\n```python\nA\n```\n```python\n```"
    ∧ String.mk (pyStrip (pyDedent ("".toList))) = ""
    ∧ cleanCode "x\n```python\nA\n```\n```python\n```" ≠ "" := by
  refine ⟨by decide, by decide, by decide, by decide⟩

/-- Claim C6, amended.  For a reply built of backtick-free prose and
two fenced regions `a` then `b`, with `b` nonempty: (1) when the fences
are python-labeled, extraction returns the dedented, trimmed text of
the *last* region `b`; (2) when the fences are unlabeled and no
python-labeled region matches anywhere, extraction falls back to the
unlabeled search and again returns the dedented, trimmed last region
`b`.  (When the last matching region is empty, extraction instead
falls back to the raw text — the part the original claim misses.) -/
theorem c6_theorem (p a m b t : List Char)
    (hp : noTick p = true) (ha : noTick a = true) (hm : noTick m = true)
    (hb : noTick b = true) (ht : noTick t = true) (hbne : b.isEmpty = false) :
    cleanCodeL (p ++ (openPy ++ ('\n' :: (a ++ (fence3 ++ (m ++ (openPy ++ ('\n' :: (b ++ (fence3 ++ t))))))))))
      = pyStrip (pyDedent b)
    ∧ (findBlocks openPy
        (p ++ (fence3 ++ ('\n' :: (a ++ (fence3 ++ (m ++ (fence3 ++ ('\n' :: (b ++ (fence3 ++ t)))))))))) = [] →
      cleanCodeL (p ++ (fence3 ++ ('\n' :: (a ++ (fence3 ++ (m ++ (fence3 ++ ('\n' :: (b ++ (fence3 ++ t))))))))))
        = pyStrip (pyDedent b)) := by
  constructor
  · have h2 := findBlocks_two openPy (tick :: (tick :: pyWord)) rfl p a m b t hp ha hm hb ht
    simp [cleanCodeL, h2, List.getLastD, hbne]
  · intro hpy
    have h2 := findBlocks_two fence3 [tick, tick] rfl p a m b t hp ha hm hb ht
    simp [cleanCodeL, hpy, h2, List.getLastD, hbne]

/-- Claim C6, witness: a concrete two-block reply in both the labeled
and the unlabeled form, with the extracted text evaluated. -/
theorem c6_witness :
    cleanCodeL ("Here is the code:\n".toList ++ (openPy ++ ('\n' :: ("bad = 1\n".toList ++
        (fence3 ++ ("\nCorrect:\n".toList ++ (openPy ++ ('\n' :: ("fig = px.bar(df)\n".toList ++
        (fence3 ++ "\ndone".toList))))))))))
      = pyStrip (pyDedent ("fig = px.bar(df)\n".toList))
    ∧ cleanCodeL ("Here is the code:\n".toList ++ (fence3 ++ ('\n' :: ("bad = 1\n".toList ++
        (fence3 ++ ("\nCorrect:\n".toList ++ (fence3 ++ ('\n' :: ("fig = px.bar(df)\n".toList ++
        (fence3 ++ "\ndone".toList))))))))))
      = pyStrip (pyDedent ("fig = px.bar(df)\n".toList))
    ∧ String.mk (pyStrip (pyDedent ("fig = px.bar(df)\n".toList))) = "fig = px.bar(df)" := by
  have h := c6_theorem "Here is the code:\n".toList "bad = 1\n".toList "\nCorrect:\n".toList
    "fig = px.bar(df)\n".toList "\ndone".toList
    (by decide) (by decide) (by decide) (by decide) (by decide) (by decide)
  exact ⟨h.1, h.2 (by decide), by decide⟩

/-- Claim C7, counterexample.  On the empty reply `_clean_code` returns
the empty string, refuting "always returns a non-empty string" (and
any whitespace-only reply strips to empty the same way). -/
theorem c7_counterexample : cleanCode "" = "" ∧ (cleanCode "").length = 0 := by
  refine ⟨by decide, by decide⟩

/-- Claim C7, amended.  Extraction is total (the Lean model is a total
function, as the source has no raising operation on this path) and for
every input in which neither pattern finds a region it returns the
dedented, trimmed raw text — which is empty exactly when the raw text
has no non-whitespace content, so the result can be empty. -/
theorem c7_theorem (text : List Char)
    (h1 : findBlocks openPy text = []) (h2 : findBlocks fence3 text = []) :
    cleanCodeL text = pyStrip (pyDedent text) := by
  simp [cleanCodeL, h1, h2]

/-- Claim C7, witness: the raw-text fallback evaluated on a concrete
fence-free reply. -/
theorem c7_witness :
    findBlocks openPy ("  hello world ".toList) = []
    ∧ findBlocks fence3 ("  hello world ".toList) = []
    ∧ cleanCode "  hello world " = "hello world" := by
  refine ⟨by decide, by decide, ?_⟩
  unfold cleanCode
  rw [c7_theorem _ (by decide) (by decide)]
  decide

/-- Claim C8: every failing exit of `execute` carries the complete
diagnostic available for its failure class, untruncated — the syntax
branch embeds all of `str(e)` after its fixed prefix (line 88), the
definition-phase and script-phase runtime branches return the full
`traceback.format_exc()` verbatim (lines 125-126), the plot-call branch
embeds the full traceback after its fixed prefix (line 104), and the
missing-output branch returns its complete fixed diagnostic sentence
(lines 117-121). -/
theorem c8_theorem (s : Snippet) (ctx : Ctx) (st : Nat) :
    (∀ m : String, s.defPhase = DefOutcome.synErr m →
      executePy s ctx st
        = ExecOutput.ret ⟨false, PyValue.none, Option.some (synErrMsg m), s.src⟩ st)
    ∧ (∀ tr : String, s.defPhase = DefOutcome.exn tr →
      executePy s ctx st = ExecOutput.ret ⟨false, PyValue.none, Option.some tr, s.src⟩ st)
    ∧ (∀ (f : Ctx → CallOutcome) (tr : String),
        s.defPhase = DefOutcome.ok (PlotBinding.callable f) → f ctx = CallOutcome.exn tr →
        executePy s ctx st
          = ExecOutput.ret ⟨false, PyValue.none, Option.some (plotErrMsg tr), s.src⟩ st)
    ∧ (∀ tr : String, s.defPhase = DefOutcome.ok PlotBinding.absent →
        s.script ctx = ScriptOutcome.exn tr →
        executePy s ctx st = ExecOutput.ret ⟨false, PyValue.none, Option.some tr, s.src⟩ st)
    ∧ (∀ asn : List (String × PyValue), s.defPhase = DefOutcome.ok PlotBinding.absent →
        s.script ctx = ScriptOutcome.ok asn → scopeFig ctx asn = Option.none →
        executePy s ctx st
          = ExecOutput.ret ⟨false, PyValue.none, Option.some missingOutputMsg, s.src⟩ st) := by
  refine ⟨?_, ?_, ?_, ?_, ?_⟩
  · intro m hd; simp [executePy, hd]
  · intro tr hd; simp [executePy, hd]
  · intro f tr hd hf; simp [executePy, hd, runSteps, hf]
  · intro tr hd hs; simp [executePy, hd, runSteps, hs]
  · intro asn hd hs hsf; simp [executePy, hd, runSteps, hs, hsf]

/-- Claim C8, witness: all five failure classes evaluated on concrete
snippets, each error carrying its full recorded diagnostic. -/
theorem c8_witness :
    executePy snipSynErr ([] : Ctx) 0
      = ExecOutput.ret
          ⟨false, PyValue.none,
            Option.some (synErrMsg "\x27(\x27 was never closed (<string>, line 1)"), "x = ("⟩ 0
    ∧ executePy snipValueErr ([] : Ctx) 0
      = ExecOutput.ret
          ⟨false, PyValue.none,
            Option.some "Traceback (most recent call last):\n  File \x22<string>\x22, line 1, in <module>\nValueError: boom\n",
            "raise ValueError(\x27boom\x27)"⟩ 0
    ∧ executePy snipPlotRaises ([] : Ctx) 0
      = ExecOutput.ret
          ⟨false, PyValue.none,
            Option.some (plotErrMsg "Traceback (most recent call last):\n  File \x22<string>\x22, line 2, in plot\nZeroDivisionError: division by zero\n"),
            "def plot(data_context):\n    return 1/0"⟩ 0
    ∧ executePy snipScriptRaises ([] : Ctx) 0
      = ExecOutput.ret
          ⟨false, PyValue.none,
            Option.some "Traceback (most recent call last):\n  File \x22<string>\x22, line 1, in <module>\nKeyError: \x27missing\x27\n",
            "y = df[\x27missing\x27]"⟩ 0
    ∧ executePy snipNoOutput ([] : Ctx) 0
      = ExecOutput.ret ⟨false, PyValue.none, Option.some missingOutputMsg, "y = 1 + 1"⟩ 0 := by
  refine ⟨?_, ?_, ?_, ?_, ?_⟩
  · exact (c8_theorem snipSynErr ([] : Ctx) 0).1 _ rfl
  · exact (c8_theorem snipValueErr ([] : Ctx) 0).2.1 _ rfl
  · exact (c8_theorem snipPlotRaises ([] : Ctx) 0).2.2.1 _ _ rfl rfl
  · exact (c8_theorem snipScriptRaises ([] : Ctx) 0).2.2.2.1 _ rfl rfl
  · exact (c8_theorem snipNoOutput ([] : Ctx) 0).2.2.2.2 _ rfl rfl (by decide)

/-- Claim C9, counterexample.  A snippet whose `plot` calls
`sys.exit(0)` raises `SystemExit` out of every handler; `execute` has
no `finally`, so the exception propagates with `sys.stdout` still set
to the redirection buffer (`6`, not the caller's `5`): restoration does
*not* happen on the propagating exit path. -/
theorem c9_counterexample :
    executePy snipPlotExit ([] : Ctx) 5 = ExecOutput.raised "SystemExit" 6
    ∧ (executePy snipPlotExit ([] : Ctx) 5).stdoutEnd ≠ 5 := by
  exact ⟨rfl, by decide⟩

/-- Claim C9, amended.  On every exit path on which `execute` returns
an `ExecutionResult` — success and returned failure alike —
`sys.stdout` is restored to its pre-call value; only a propagating
non-`Exception` `BaseException` (no `finally` exists) leaves the
redirection installed. -/
theorem c9_theorem (s : Snippet) (ctx : Ctx) (st : Nat)
    (h : (executePy s ctx st).isRet = true) : (executePy s ctx st).stdoutEnd = st := by
  cases hout : executePy s ctx st with
  | ret r st2 =>
    simp only [ExecOutput.stdoutEnd]
    exact executePy_ret_stdout s ctx st r st2 hout
  | raised e st2 => rw [hout] at h; simp [ExecOutput.isRet] at h

/-- Claim C9, witness: stdout restored on a concrete returning call. -/
theorem c9_witness : (executePy snipPass ([] : Ctx) 3).stdoutEnd = 3 :=
  c9_theorem snipPass ([] : Ctx) 3 rfl

/-- Claim C10, counterexample.  Two errors that, per the claim's
pattern table, would have to trigger different corrective-guidance
texts (a column-not-found `KeyError` and a `ModuleNotFoundError`)
produce fix requests that are the *same* fixed template around the
verbatim code and error: `CodeGenerator.fix_code` contains no
(pattern → hint) table at all — nothing in the request depends on the
error beyond quoting it. -/
theorem c10_counterexample :
    fixUserPrompt "fig = px.bar(df.groupby(\x27zone\x27))" "KeyError: \x27zone\x27"
      = fixPromptA ++ "fig = px.bar(df.groupby(\x27zone\x27))" ++ fixPromptB
          ++ "KeyError: \x27zone\x27" ++ fixPromptC
    ∧ fixUserPrompt "fig = px.bar(df.groupby(\x27zone\x27))"
        "ModuleNotFoundError: No module named \x27geopandas\x27"
      = fixPromptA ++ "fig = px.bar(df.groupby(\x27zone\x27))" ++ fixPromptB
          ++ "ModuleNotFoundError: No module named \x27geopandas\x27" ++ fixPromptC := by
  exact ⟨rfl, rfl⟩

/-- Claim C10, amended.  On every repair cycle the fix request is
exactly two messages: the rebuilt system prompt (which contains each
dataset's schema description) and a fixed user template with the
previous candidate code and the full error text embedded verbatim; no
error-pattern-triggered hints exist or are appended. -/
theorem c10_theorem (code err : String) (summaries : List DataSummary) :
    fixCodeMessages code err summaries
      = [⟨"system", buildSystemPrompt summaries⟩,
         ⟨"user", fixPromptA ++ code ++ fixPromptB ++ err ++ fixPromptC⟩]
    ∧ strContains (fixUserPrompt code err) code
    ∧ strContains (fixUserPrompt code err) err
    ∧ (∀ s : DataSummary, s ∈ summaries → strContains (buildSystemPrompt summaries) (contextDesc s)) := by
  refine ⟨rfl, ?_, ?_, ?_⟩
  · exact ⟨fixPromptA, fixPromptB ++ err ++ fixPromptC, by simp [fixUserPrompt, String.append_assoc]⟩
  · exact ⟨fixPromptA ++ code ++ fixPromptB, fixPromptC, by simp [fixUserPrompt, String.append_assoc]⟩
  · intro s hs
    obtain ⟨x, y, hxy⟩ :=
      joinBlankStr_contains (summaries.map contextDesc) (contextDesc s) (List.mem_map_of_mem _ hs)
    exact ⟨sysPromptPre ++ x, y ++ sysPromptPost, by simp [buildSystemPrompt, hxy, String.append_assoc]⟩

/-- Claim C10, witness: the fix request evaluated on a concrete code,
error and one-dataset summary list. -/
theorem c10_witness :
    fixCodeMessages "fig = 1" "boom" [sumTrips]
      = [⟨"system", buildSystemPrompt [sumTrips]⟩,
         ⟨"user", fixPromptA ++ "fig = 1" ++ fixPromptB ++ "boom" ++ fixPromptC⟩]
    ∧ strContains (fixUserPrompt "fig = 1" "boom") "fig = 1"
    ∧ strContains (fixUserPrompt "fig = 1" "boom") "boom"
    ∧ strContains (buildSystemPrompt [sumTrips]) (contextDesc sumTrips) := by
  have h := c10_theorem "fig = 1" "boom" [sumTrips]
  exact ⟨h.1, h.2.1, h.2.2.1, h.2.2.2 sumTrips (by simp)⟩

end NLSTV
